import Mathlib

/-!
Shallow embedding of the nmsg-rust core (src/src) in Lean 4, used to check the
specification claims about the protocol capability layer, the pattern
algorithms, the socket-option framework, the address decoder and the message
buffer operations.

The repository contains two generations of the wrapper: the nanomsg generation
(protocol.rs, socket.rs, error.rs, alloc.rs) and the nng generation
(options.rs, address.rs, message.rs, pipe.rs, protocols.rs).  Both are
embedded where a claim touches them.
-/

namespace Nmsg

/-- Error model from src/src/error.rs: a wrapper around the raw errno
(`pub struct Error(pub c_int)`).  Values of the named constants are the
POSIX errno values used by the nanomsg C library on Linux. -/
structure Error where
  code : Int
deriving DecidableEq

/-- error.rs: `INVALID = EINVAL` (errno 22). -/
def INVALID : Error := ⟨22⟩

/-- error.rs: `TIMED_OUT = ETIMEDOUT` (errno 110). -/
def TIMED_OUT : Error := ⟨110⟩

/-- error.rs: `WOULD_BLOCK = EAGAIN` (errno 11). -/
def WOULD_BLOCK : Error := ⟨11⟩

/-- A message buffer (alloc.rs MessageBuffer / message.rs Message body) is a
region of bytes; modelled as a list of byte values. -/
abbrev MessageBuffer := List Nat

/-- Outcome of a Rust computation that can panic (`unwrap`, failed `assert!`,
slice-length mismatch).  `ok` is normal return, `panicked` is a panic. -/
inductive PanicOr (α : Type) where
  | ok (val : α)
  | panicked
deriving DecidableEq

/-! ## Protocol capability layer (src/src/protocol.rs, `def_protocols!`) -/

/-- The ten protocol socket types defined by the `def_protocols!` invocation
in protocol.rs lines 417-499. -/
inductive ProtocolType where
  | Pub | Sub | Bus | Req | Rep | Push | Pull | Surveyor | Respondent | Pair
deriving DecidableEq, Fintype

/-- Whether the protocol type implements the `SPSend` trait, transcribed from
the trait list of each `struct X: traits <> companion;` line in
`def_protocols!`. -/
def implSPSend : ProtocolType → Bool
  | .Pub => true
  | .Sub => false
  | .Bus => true
  | .Req => true
  | .Rep => true
  | .Push => true
  | .Pull => false
  | .Surveyor => true
  | .Respondent => true
  | .Pair => true

/-- Whether the protocol type implements the `SPRecv` trait, transcribed from
`def_protocols!`. -/
def implSPRecv : ProtocolType → Bool
  | .Pub => false
  | .Sub => true
  | .Bus => true
  | .Req => true
  | .Rep => true
  | .Push => false
  | .Pull => true
  | .Surveyor => true
  | .Respondent => true
  | .Pair => true

/-- Whether the protocol type implements the `Loopback` trait, transcribed
from `def_protocols!`. -/
def implLoopback : ProtocolType → Bool
  | .Bus => true
  | .Pair => true
  | _ => false

/-- The `type Companion` associated type of each protocol, transcribed from
the `<> companion` part of each `def_protocols!` line. -/
def companion : ProtocolType → ProtocolType
  | .Pub => .Sub
  | .Sub => .Pub
  | .Bus => .Bus
  | .Req => .Rep
  | .Rep => .Req
  | .Push => .Pull
  | .Pull => .Push
  | .Surveyor => .Respondent
  | .Respondent => .Surveyor
  | .Pair => .Pair

/-- `SPSocket::device(&self, companion: &Self::Companion)`: a two-socket
device is well-typed exactly when the second argument has the companion type
of the first argument. -/
def device_well_typed (a b : ProtocolType) : Bool := companion a == b

/-! ## Survey algorithm (protocol.rs, `Surveyor::survey`, lines 564-578) -/

/-- One observed result of a blocking `recv` call on the underlying socket. -/
inductive RecvOutcome where
  | ok (msg : MessageBuffer)
  | err (e : Error)

/-- The `loop` body of `Surveyor::survey` run against a finite trace of recv
results: `Ok(resp)` pushes the response, `Err(TIMED_OUT)` returns the
accumulated vector as success, any other error is returned as the failure.
`none` means the trace was exhausted with the loop still running. -/
def surveyLoop : List RecvOutcome → List MessageBuffer →
    Option (Except Error (List MessageBuffer))
  | [], _ => none
  | RecvOutcome.ok m :: rest, responses => surveyLoop rest (responses ++ [m])
  | RecvOutcome.err e :: _, responses =>
    if e = TIMED_OUT then some (Except.ok responses) else some (Except.error e)

/-- `Surveyor::survey(message)`: first `self.send(message)?`, then the
receive loop.  `sendRes` is the result of the underlying send of the survey
message, `recvs` the trace of subsequent recv results. -/
def survey (sendRes : Except Error Nat) (recvs : List RecvOutcome) :
    Option (Except Error (List MessageBuffer)) :=
  match sendRes with
  | Except.error e => some (Except.error e)
  | Except.ok _ => surveyLoop recvs []

/-! ## Unwrapping wrappers (protocol.rs: `sock_option!` getters, `domain`,
`Sub::subscribe` / `Sub::unsubscribe`, `Surveyor::get_survey_deadline`) -/

/-- The body of every getter generated by the `sock_option!` macro
(protocol.rs lines 19-38): `self.socket().get_option::<T>(..).unwrap()`.
The argument is the result of the underlying `get_option` call; `unwrap`
panics on an error. -/
def sockOptionGetter (underlying : Except Error Int) : PanicOr Int :=
  match underlying with
  | Except.ok v => PanicOr.ok v
  | Except.error _ => PanicOr.panicked

/-- The setter generated by `sock_option!`: it forwards the result of the
underlying `set_option` call unchanged (a `Result`). -/
def sockOptionSetter (underlying : Except Error Unit) : Except Error Unit :=
  underlying

/-- Socket domains (socket.rs `Domain`). -/
inductive Domain where
  | SP
  | SPRaw
deriving DecidableEq

/-- nanomsg constant `AF_SP` (value from the nanomsg C headers). -/
def AF_SP : Int := 1

/-- nanomsg constant `AF_SP_RAW` (value from the nanomsg C headers). -/
def AF_SP_RAW : Int := 2

/-- `SPSocket::domain` (protocol.rs lines 159-169): unwraps the underlying
`get_option::<i32>(NN_SOL_SOCKET, NN_DOMAIN)` result (panicking on error) and
matches it against `AF_SP` and `AF_SP_RAW`, panicking on anything else. -/
def SPSocket_domain (underlying : Except Error Int) : PanicOr Domain :=
  match underlying with
  | Except.error _ => PanicOr.panicked
  | Except.ok dom =>
    if dom = AF_SP then PanicOr.ok Domain.SP
    else if dom = AF_SP_RAW then PanicOr.ok Domain.SPRaw
    else PanicOr.panicked

/-- `Sub::subscribe` / `Sub::unsubscribe` (protocol.rs lines 506-517): runs
`set_option(NN_SUB, ..., topic).unwrap()` and returns `()`.  The argument is
the result of the underlying `set_option` call. -/
def Sub_subscribe (underlying : Except Error Unit) : PanicOr Unit :=
  match underlying with
  | Except.ok _ => PanicOr.ok ()
  | Except.error _ => PanicOr.panicked

/-- `Surveyor::get_survey_deadline` (protocol.rs lines 591-593):
`get_option::<i32>(NN_SURVEYOR, NN_SURVEYOR_DEADLINE).unwrap()`. -/
def Surveyor_get_survey_deadline (underlying : Except Error Int) : PanicOr Int :=
  match underlying with
  | Except.ok v => PanicOr.ok v
  | Except.error _ => PanicOr.panicked

/-! ## Option getters, scalar types

The underlying native getter call is modelled as an oracle: it is handed the
byte size passed in (the caller initialises the size variable with the buffer
size) and either fails with an error or returns the value it wrote together
with the size it reported back through the size pointer. -/

/-- `primitive_option!` getter body (options.rs lines 44-60), generic in
`mem::size_of::<T>()`: initialise `size` with `size_of`, run the native
getter, propagate its error, then fail with `INVALID` unless the reported
size equals `size_of`; otherwise return the value. -/
def primitive_get_option (sizeofT : Nat)
    (getter : Nat → Except Error (Int × Nat)) : Except Error Int :=
  match getter sizeofT with
  | Except.error e => Except.error e
  | Except.ok (val, size) =>
    if size ≠ sizeofT then Except.error INVALID else Except.ok val

/-- options.rs `primitive_option!(i32)`: `mem::size_of::<i32>() = 4`. -/
def i32_get_option (getter : Nat → Except Error (Int × Nat)) :
    Except Error Int :=
  primitive_get_option 4 getter

/-- options.rs `primitive_option!(usize)` (64-bit target, size 8). -/
def usize_get_option (getter : Nat → Except Error (Int × Nat)) :
    Except Error Int :=
  primitive_get_option 8 getter

/-- options.rs `primitive_option!(u64)`: size 8. -/
def u64_get_option (getter : Nat → Except Error (Int × Nat)) :
    Except Error Int :=
  primitive_get_option 8 getter

/-- options.rs `GetOption for Milliseconds` (lines 84-94): identical shape
with `mem::size_of::<nng_duration>() = 4`. -/
def Milliseconds_get_option (getter : Nat → Except Error (Int × Nat)) :
    Except Error Int :=
  primitive_get_option 4 getter

/-- socket.rs `OptionGet for i32` (lines 474-488): initialises `size` with
`mem::size_of::<i32>()`, calls `nn_getsockopt`, propagates its error, and
returns the value WITHOUT comparing the reported size to `size_of`. -/
def OptionGet_i32_get (getter : Nat → Except Error (Int × Nat)) :
    Except Error Int :=
  match getter 4 with
  | Except.error e => Except.error e
  | Except.ok (value, _size) => Except.ok value

/-! ## Option getters, variable-length (byte vector) -/

/-- options.rs / socket.rs probe buffer size `BUF_SIZE`. -/
def BUF_SIZE : Nat := 128

/-- The native getter oracle for variable-length options: handed the size
passed in, it either fails or returns the bytes it wrote into the buffer and
the actual size it reported back. -/
abbrev VecGetter := Nat → Except Error (List Nat × Nat)

/-- `Vec::set_len(n)` on a buffer whose first bytes were written by the
native getter: exposes the first `n` bytes; bytes the getter did not write
are uninitialised and modelled as 0. -/
def vec_set_len (written : List Nat) (n : Nat) : List Nat :=
  (written ++ List.replicate n 0).take n

/-- options.rs `GetOption for Vec<u8>` (lines 67-82): probe with a 128-byte
buffer; if the reported size exceeds 128, `reserve_exact` to the reported
size and call the getter once more; `assert!` that the size reported by the
second call fits the enlarged buffer (panic otherwise); `set_len` to the
final reported size.  The second component counts native getter calls. -/
def GetOption_Vec_get_option (getter : VecGetter) :
    PanicOr (Except Error (List Nat)) × Nat :=
  match getter BUF_SIZE with
  | Except.error e => (PanicOr.ok (Except.error e), 1)
  | Except.ok (data1, size1) =>
    if BUF_SIZE < size1 then
      -- capacity after reserve_exact(size1) is size1 (size1 > 128)
      match getter size1 with
      | Except.error e => (PanicOr.ok (Except.error e), 2)
      | Except.ok (data2, size2) =>
        if size2 ≤ size1 then
          (PanicOr.ok (Except.ok (vec_set_len data2 size2)), 2)
        else (PanicOr.panicked, 2)
    else (PanicOr.ok (Except.ok (vec_set_len data1 size1)), 1)

/-- `Vec::truncate(n)`: keeps the first `n` elements, no-op if `n` is not
below the current length. -/
def vec_truncate (v : List Nat) (n : Nat) : List Nat :=
  if n < v.length then v.take n else v

/-- socket.rs `OptionGet for Vec<u8>` (lines 503-519): a single
`nn_getsockopt` call on a `vec![0; 128]` buffer followed by
`value.truncate(size)` — no retry.  The second component counts native
getter calls. -/
def OptionGet_Vec_get (getter : VecGetter) :
    Except Error (List Nat) × Nat :=
  match getter BUF_SIZE with
  | Except.error e => (Except.error e, 1)
  | Except.ok (data, size) =>
    (Except.ok (vec_truncate
      ((data ++ List.replicate BUF_SIZE 0).take BUF_SIZE) size), 1)

/-! ## Reply algorithm (protocol.rs, `Rep::reply` / `Rep::reply_loop`,
lines 528-557) -/

/-- `Rep::reply(handler)`: `recv()?`, apply the handler, `send(result)?`.
`fromE` is the `From<Error>` conversion of the generic error type `E`;
`sendRes` gives the transport result of sending a given response.  The
second component records the response handed to `send`, `none` when `send`
was never reached. -/
def Rep_reply {E : Type} (fromE : Error → E)
    (recvRes : Except Error MessageBuffer)
    (handler : MessageBuffer → Except E MessageBuffer)
    (sendRes : MessageBuffer → Except Error Nat) :
    Except E Unit × Option MessageBuffer :=
  match recvRes with
  | Except.error e => (Except.error (fromE e), none)
  | Except.ok request =>
    match handler request with
    | Except.error e => (Except.error e, none)
    | Except.ok response =>
      match sendRes response with
      | Except.error e => (Except.error (fromE e), some response)
      | Except.ok _ => (Except.ok (), some response)

/-- `Rep::reply_loop(handler)`: repeat `reply` until one iteration fails and
return that failure.  Each trace element is the pair of underlying recv and
send oracles for one iteration; `none` means the trace was exhausted with
every iteration succeeding (the loop still running). -/
def Rep_reply_loop {E : Type} (fromE : Error → E)
    (handler : MessageBuffer → Except E MessageBuffer)
    (iters : List ((Except Error MessageBuffer) ×
      (MessageBuffer → Except Error Nat))) : Option E :=
  match iters with
  | [] => none
  | (r, s) :: rest =>
    match (Rep_reply fromE r handler s).1 with
    | Except.error e => some e
    | Except.ok _ => Rep_reply_loop fromE handler rest

/-- `Respondent::respond` (protocol.rs lines 601-608) has the same body as
`Rep::reply`. -/
def Respondent_respond {E : Type} (fromE : Error → E)
    (recvRes : Except Error MessageBuffer)
    (handler : MessageBuffer → Except E MessageBuffer)
    (sendRes : MessageBuffer → Except Error Nat) :
    Except E Unit × Option MessageBuffer :=
  Rep_reply fromE recvRes handler sendRes

/-! ## Address decoding (src/src/address.rs) -/

/-- nng address family discriminants (nng-sys/src/lib.rs lines 84-89). -/
def NNG_AF_UNSPEC : Nat := 0

/-- nng address family: in-process. -/
def NNG_AF_INPROC : Nat := 1

/-- nng address family: IPC. -/
def NNG_AF_IPC : Nat := 2

/-- nng address family: IPv4. -/
def NNG_AF_INET : Nat := 3

/-- nng address family: IPv6. -/
def NNG_AF_INET6 : Nat := 4

/-- nng address family: ZeroTier. -/
def NNG_AF_ZT : Nat := 5

/-- The `nng_sockaddr` union (nng-sys/src/lib.rs lines 103-145), flattened:
the `u16` family discriminant plus the payload of every view.  `s_inproc`
and `s_path` overlap in the union, so both are represented by the single
`sa_path` field (the 128-byte path array). -/
structure NngSockaddr where
  s_family : Nat
  sa_path : List Nat
  in_port : Nat
  in_addr : Nat
  in6_port : Nat
  in6_addr : List Nat
  zt_nwid : Nat
  zt_nodeid : Nat
  zt_port : Nat

/-- An IPv4 or IPv6 address-port pair (`std::net::SocketAddr`). -/
inductive InetAddr where
  | V4 (addr : Nat) (port : Nat)
  | V6 (addr : List Nat) (port : Nat)
deriving DecidableEq

/-- address.rs `SocketAddr`. -/
inductive SocketAddr where
  | Unspecified
  | InProc (path : List Nat)
  | Ipc (path : List Nat)
  | Inet (addr : InetAddr)
  | ZeroTier (nwid : Nat) (nodeid : Nat) (port : Nat)
deriving DecidableEq

/-- address.rs `extract_path` (lines 65-69): the bytes of `sa_path` before
the first NUL, or the whole array when there is none. -/
def extract_path (path : List Nat) : List Nat :=
  let e := (path.findIdx? (fun i => i == 0)).getD path.length
  path.take e

/-- address.rs `From<nng_sockaddr> for SocketAddr` (lines 24-47): match on
the family discriminant, with a wildcard arm mapping every other family to
`Unspecified`. -/
def SocketAddr_from (sockaddr : NngSockaddr) : SocketAddr :=
  if sockaddr.s_family = NNG_AF_INPROC then
    SocketAddr.InProc (extract_path sockaddr.sa_path)
  else if sockaddr.s_family = NNG_AF_IPC then
    SocketAddr.Ipc (extract_path sockaddr.sa_path)
  else if sockaddr.s_family = NNG_AF_INET then
    SocketAddr.Inet (InetAddr.V4 sockaddr.in_addr sockaddr.in_port)
  else if sockaddr.s_family = NNG_AF_INET6 then
    SocketAddr.Inet (InetAddr.V6 sockaddr.in6_addr sockaddr.in6_port)
  else if sockaddr.s_family = NNG_AF_ZT then
    SocketAddr.ZeroTier sockaddr.zt_nwid sockaddr.zt_nodeid sockaddr.zt_port
  else SocketAddr.Unspecified

/-! ## Message body operations (src/src/message.rs) -/

/-- `nng_msg_chop(msg, n)`: remove `n` bytes from the end of the body. -/
def nng_msg_chop (body : List Nat) (n : Nat) : List Nat :=
  body.take (body.length - n)

/-- `nng_msg_trim(msg, n)`: remove `n` bytes from the front of the body. -/
def nng_msg_trim (body : List Nat) (n : Nat) : List Nat :=
  body.drop n

/-- `Message::append` (message.rs lines 99-103): `nng_msg_append` adds the
bytes to the end of the body. -/
def Message_append (body : List Nat) (data : List Nat) : List Nat :=
  body ++ data

/-- `Message::truncate` (message.rs lines 63-68): keep the first `len`
bytes by chopping `old_len - len` bytes off the end, doing nothing unless
`len < old_len`. -/
def Message_truncate (body : List Nat) (len : Nat) : List Nat :=
  let old_len := body.length
  if len < old_len then nng_msg_chop body (old_len - len) else body

/-- `io::Read::read for Message` (message.rs lines 179-187):
`n = min(buf.len(), self.len())`, then `buf.copy_from_slice(src)` where
`src` is the first `n` body bytes — `copy_from_slice` PANICS unless the two
slices have equal length, i.e. unless `buf.len() = n` — then
`nng_msg_trim(n)` and `Ok(n)`.  Returns the buffer contents after the call,
the remaining body and the returned count. -/
def Message_read (body : List Nat) (buf : List Nat) :
    PanicOr (List Nat × List Nat × Nat) :=
  let n := min buf.length body.length
  if buf.length = n then
    PanicOr.ok (body.take n, nng_msg_trim body n, n)
  else PanicOr.panicked

/-! ## Helper lemmas -/

/-- Running the survey loop over a prefix of successful receives appends the
received messages to the accumulator. -/
theorem surveyLoop_append_oks (ms : List MessageBuffer) (acc : List MessageBuffer)
    (tail : List RecvOutcome) :
    surveyLoop (ms.map RecvOutcome.ok ++ tail) acc = surveyLoop tail (acc ++ ms) := by
  induction ms generalizing acc with
  | nil => simp
  | cons m rest ih =>
    have h1 : (m :: rest).map RecvOutcome.ok ++ tail
        = RecvOutcome.ok m :: (rest.map RecvOutcome.ok ++ tail) := by simp
    rw [h1]
    show surveyLoop (rest.map RecvOutcome.ok ++ tail) (acc ++ [m]) = _
    rw [ih]
    simp

/-- A trace of all-successful iterations keeps `Rep_reply_loop` running. -/
theorem Rep_reply_loop_all_ok {E : Type} (fromE : Error → E)
    (handler : MessageBuffer → Except E MessageBuffer)
    (iters : List ((Except Error MessageBuffer) ×
      (MessageBuffer → Except Error Nat)))
    (h : ∀ it ∈ iters, (Rep_reply fromE it.1 handler it.2).1 = Except.ok ()) :
    Rep_reply_loop fromE handler iters = none := by
  induction iters with
  | nil => rfl
  | cons it rest ih =>
    have hit := h it (List.mem_cons_self it rest)
    obtain ⟨r, s⟩ := it
    simp only [Rep_reply_loop]
    rw [hit]
    exact ih fun x hx => h x (List.mem_cons_of_mem _ hx)

/-- `extract_path` returns exactly the bytes preceding the first NUL. -/
theorem extract_path_eq_takeWhile (path : List Nat) :
    extract_path path = path.takeWhile (fun i => !(i == 0)) := by
  induction path with
  | nil => rfl
  | cons x xs ih =>
    by_cases hx : x = 0
    · subst hx
      simp [extract_path, List.takeWhile_cons, List.findIdx?_cons]
    · have hbx : (x == 0) = false := beq_eq_false_iff_ne.mpr hx
      simp only [extract_path, List.takeWhile_cons, List.findIdx?_cons, hbx,
        List.findIdx?_succ, List.length_cons, Bool.not_false, if_true,
        Bool.false_eq_true, if_false]
      rw [← ih]
      simp only [extract_path]
      cases hfind : List.findIdx? (fun i => i == 0) xs with
      | none => simp [hfind, List.take_succ_cons]
      | some k => simp [hfind, List.take_succ_cons]

/-- A prefix of all-successful iterations followed by a failing iteration
makes `Rep_reply_loop` return exactly the failing iteration error. -/
theorem Rep_reply_loop_first_err {E : Type} (fromE : Error → E)
    (handler : MessageBuffer → Except E MessageBuffer)
    (good : List ((Except Error MessageBuffer) ×
      (MessageBuffer → Except Error Nat)))
    (rf : Except Error MessageBuffer) (sf : MessageBuffer → Except Error Nat)
    (rest : List ((Except Error MessageBuffer) ×
      (MessageBuffer → Except Error Nat)))
    (e : E)
    (hgood : ∀ it ∈ good, (Rep_reply fromE it.1 handler it.2).1 = Except.ok ())
    (hf : (Rep_reply fromE rf handler sf).1 = Except.error e) :
    Rep_reply_loop fromE handler (good ++ (rf, sf) :: rest) = some e := by
  induction good with
  | nil =>
    simp only [List.nil_append, Rep_reply_loop]
    rw [hf]
  | cons it more ih =>
    obtain ⟨r, s⟩ := it
    have hit := hgood (r, s) (List.mem_cons_self _ _)
    simp only [List.cons_append, Rep_reply_loop]
    rw [hit]
    exact ih fun x hx => hgood x (List.mem_cons_of_mem _ hx)

/-! ## Claim theorems -/

/-- C1: each protocol socket type exposes exactly its declared capability
set: Pub and Push implement only SPSend, Sub and Pull only SPRecv, Req, Rep,
Bus, Pair, Surveyor and Respondent both, and only Bus and Pair implement
Loopback; send-only types implement no receive operation and vice versa. -/
theorem C1_capability_matrix :
    (∀ p, implSPSend p = true ↔
      p ∈ [ProtocolType.Pub, ProtocolType.Push, ProtocolType.Req,
           ProtocolType.Rep, ProtocolType.Bus, ProtocolType.Pair,
           ProtocolType.Surveyor, ProtocolType.Respondent]) ∧
    (∀ p, implSPRecv p = true ↔
      p ∈ [ProtocolType.Sub, ProtocolType.Pull, ProtocolType.Req,
           ProtocolType.Rep, ProtocolType.Bus, ProtocolType.Pair,
           ProtocolType.Surveyor, ProtocolType.Respondent]) ∧
    (∀ p, implLoopback p = true ↔ p ∈ [ProtocolType.Bus, ProtocolType.Pair]) ∧
    (∀ p, (implSPSend p = true ∧ implSPRecv p = false) ↔
      p ∈ [ProtocolType.Pub, ProtocolType.Push]) ∧
    (∀ p, (implSPRecv p = true ∧ implSPSend p = false) ↔
      p ∈ [ProtocolType.Sub, ProtocolType.Pull]) := by
  decide

/-- C7: the companion assignment is exactly Pub-Sub, Req-Rep, Push-Pull,
Surveyor-Respondent, Pair-Pair, Bus-Bus; it is an involution, and a
two-socket device is well-typed exactly between a type and its declared
companion. -/
theorem C7_companion_involution :
    companion ProtocolType.Pub = ProtocolType.Sub ∧
    companion ProtocolType.Sub = ProtocolType.Pub ∧
    companion ProtocolType.Req = ProtocolType.Rep ∧
    companion ProtocolType.Rep = ProtocolType.Req ∧
    companion ProtocolType.Push = ProtocolType.Pull ∧
    companion ProtocolType.Pull = ProtocolType.Push ∧
    companion ProtocolType.Surveyor = ProtocolType.Respondent ∧
    companion ProtocolType.Respondent = ProtocolType.Surveyor ∧
    companion ProtocolType.Pair = ProtocolType.Pair ∧
    companion ProtocolType.Bus = ProtocolType.Bus ∧
    (∀ t, companion (companion t) = t) ∧
    (∀ a b, device_well_typed a b = true ↔ b = companion a) := by
  decide

/-- C2: survey sends the message first (a send failure is returned as the
error), then accumulates received responses in arrival order; a receive
failing with exactly TIMED_OUT terminates the survey successfully with the
accumulated responses (empty if none arrived), while any other receive error
is returned as the failure with no partial results. -/
theorem C2_survey_semantics :
    (∀ e recvs, survey (Except.error e) recvs = some (Except.error e)) ∧
    (∀ n (ms : List MessageBuffer) rest,
      survey (Except.ok n)
        (ms.map RecvOutcome.ok ++ RecvOutcome.err TIMED_OUT :: rest) =
        some (Except.ok ms)) ∧
    (∀ n (ms : List MessageBuffer) rest e, e ≠ TIMED_OUT →
      survey (Except.ok n)
        (ms.map RecvOutcome.ok ++ RecvOutcome.err e :: rest) =
        some (Except.error e)) := by
  refine ⟨fun e recvs => rfl, fun n ms rest => ?_, fun n ms rest e he => ?_⟩
  · show surveyLoop _ [] = _
    rw [surveyLoop_append_oks]
    simp [surveyLoop]
  · show surveyLoop _ [] = _
    rw [surveyLoop_append_oks]
    simp [surveyLoop, he]

/-- Witness for C2: a survey whose send succeeds, receiving one response and
then TIMED_OUT, returns exactly that response; one whose first receive fails
with INVALID returns the INVALID error. -/
theorem C2_survey_semantics_witness :
    INVALID ≠ TIMED_OUT ∧
    survey (Except.ok 1)
      (List.map RecvOutcome.ok [[2, 3]] ++ RecvOutcome.err TIMED_OUT :: []) =
      some (Except.ok [[2, 3]]) ∧
    survey (Except.ok 1)
      (List.map RecvOutcome.ok [] ++ RecvOutcome.err INVALID :: []) =
      some (Except.error INVALID) :=
  ⟨by decide, C2_survey_semantics.2.1 1 [[2, 3]] [],
   C2_survey_semantics.2.2 1 [] [] INVALID (by decide)⟩

/-- C3 counterexample: the operations the claim names do NOT surface a
failing underlying get/set-option call as a returned error — the generated
getter body, `SPSocket::domain`, `Sub::subscribe` and
`Surveyor::get_survey_deadline` all unwrap the underlying result and panic
when it is an error. -/
theorem C3_counterexample :
    sockOptionGetter (Except.error INVALID) = PanicOr.panicked ∧
    SPSocket_domain (Except.error INVALID) = PanicOr.panicked ∧
    Sub_subscribe (Except.error INVALID) = PanicOr.panicked ∧
    Surveyor_get_survey_deadline (Except.error INVALID) = PanicOr.panicked :=
  ⟨rfl, rfl, rfl, rfl⟩

/-- C3 amended: the generated socket-option getters, `SPSocket::domain`,
`Sub::subscribe`/`unsubscribe` and `Surveyor::get_survey_deadline` panic
(via unwrap) whenever the underlying get/set-option call fails, and return
the underlying value on success; `domain` additionally panics on a domain
value that is neither AF_SP nor AF_SP_RAW.  The generated setters do return
the underlying result as an explicit error value. -/
theorem C3_amended_panics :
    (∀ e, sockOptionGetter (Except.error e) = PanicOr.panicked) ∧
    (∀ v, sockOptionGetter (Except.ok v) = PanicOr.ok v) ∧
    (∀ r, sockOptionSetter r = r) ∧
    (∀ e, SPSocket_domain (Except.error e) = PanicOr.panicked) ∧
    SPSocket_domain (Except.ok AF_SP) = PanicOr.ok Domain.SP ∧
    SPSocket_domain (Except.ok AF_SP_RAW) = PanicOr.ok Domain.SPRaw ∧
    (∀ v, v ≠ AF_SP → v ≠ AF_SP_RAW →
      SPSocket_domain (Except.ok v) = PanicOr.panicked) ∧
    (∀ e, Sub_subscribe (Except.error e) = PanicOr.panicked) ∧
    (∀ e, Surveyor_get_survey_deadline (Except.error e) = PanicOr.panicked) := by
  refine ⟨fun e => rfl, fun v => rfl, fun r => rfl, fun e => rfl, rfl, rfl,
    ?_, fun e => rfl, fun e => rfl⟩
  intro v h1 h2
  simp [SPSocket_domain, h1, h2]

/-- Witness for C3 amended: `domain` panics on the unknown domain value 3. -/
theorem C3_amended_panics_witness :
    (3 : Int) ≠ AF_SP ∧ (3 : Int) ≠ AF_SP_RAW ∧
    SPSocket_domain (Except.ok 3) = PanicOr.panicked :=
  ⟨by decide, by decide,
   C3_amended_panics.2.2.2.2.2.2.1 3 (by decide) (by decide)⟩

/-- C4 counterexample: the nanomsg-generation scalar getter
(socket.rs `OptionGet for i32`) performs no size check — with the native
call reporting a size of 2 instead of `size_of::<i32>() = 4` it still
returns the decoded value rather than the Invalid error. -/
theorem C4_counterexample :
    OptionGet_i32_get (fun _ => Except.ok (7, 2)) = Except.ok 7 ∧
    (Except.ok 7 : Except Error Int) ≠ Except.error INVALID :=
  ⟨rfl, fun h => nomatch h⟩

/-- C4 amended: in the nng-generation option framework (options.rs,
`primitive_option!` for i32, usize, u64 and `GetOption for Milliseconds`)
the getter returns Invalid exactly when the exchanged byte size differs from
size_of T and the decoded value only when it matches; the nanomsg-generation
socket.rs i32 getter does not perform this size check. -/
theorem C4_amended_scalar_size_check (sizeofT : Nat)
    (getter : Nat → Except Error (Int × Nat)) :
    (∀ e, getter sizeofT = Except.error e →
      primitive_get_option sizeofT getter = Except.error e) ∧
    (∀ v s, getter sizeofT = Except.ok (v, s) → s ≠ sizeofT →
      primitive_get_option sizeofT getter = Except.error INVALID) ∧
    (∀ v, getter sizeofT = Except.ok (v, sizeofT) →
      primitive_get_option sizeofT getter = Except.ok v) ∧
    i32_get_option getter = primitive_get_option 4 getter ∧
    usize_get_option getter = primitive_get_option 8 getter ∧
    u64_get_option getter = primitive_get_option 8 getter ∧
    Milliseconds_get_option getter = primitive_get_option 4 getter := by
  refine ⟨?_, ?_, ?_, rfl, rfl, rfl, rfl⟩
  · intro e h
    simp [primitive_get_option, h]
  · intro v s h hs
    simp [primitive_get_option, h, hs]
  · intro v h
    simp [primitive_get_option, h]

/-- Witness for C4 amended: size 2 reported for a 4-byte type gives Invalid;
a matching size gives the value. -/
theorem C4_amended_scalar_size_check_witness :
    (2 : Nat) ≠ 4 ∧
    primitive_get_option 4 (fun _ => Except.ok (5, 2)) = Except.error INVALID ∧
    primitive_get_option 4 (fun _ => Except.ok (5, 4)) = Except.ok 5 :=
  ⟨by decide,
   (C4_amended_scalar_size_check 4 (fun _ => Except.ok (5, 2))).2.1 5 2 rfl
     (by decide),
   (C4_amended_scalar_size_check 4 (fun _ => Except.ok (5, 4))).2.2.1 5 rfl⟩

set_option maxRecDepth 8000 in
/-- C5 counterexample: the nanomsg-generation byte-vector getter
(socket.rs `OptionGet for Vec<u8>`), with the transport reporting an actual
size of 200 (> 128), makes exactly one native call (no retry) and returns a
128-byte vector instead of a 200-byte one. -/
theorem C5_counterexample :
    OptionGet_Vec_get (fun n => Except.ok (List.replicate (min n 200) 1, 200)) =
      (Except.ok (List.replicate 128 1), 1) ∧
    (List.replicate 128 (1 : Nat)).length ≠ 200 := by
  constructor
  · rfl
  · decide

/-- C5 amended: in the nng-generation option framework (options.rs,
`GetOption for Vec<u8>`) the getter probes with a fixed 128-byte buffer,
retries exactly once (never more) if and only if the transport reports a
size larger than 128, and the returned vector has length equal to the
reported size; the nanomsg-generation socket.rs getter never retries and
truncates to the probe buffer size. -/
theorem C5_amended_probe_retry (getter : VecGetter) :
    (GetOption_Vec_get_option getter).2 ≤ 2 ∧
    (∀ e, getter BUF_SIZE = Except.error e →
      GetOption_Vec_get_option getter = (PanicOr.ok (Except.error e), 1)) ∧
    (∀ d1 s1, getter BUF_SIZE = Except.ok (d1, s1) → s1 ≤ BUF_SIZE →
      GetOption_Vec_get_option getter =
        (PanicOr.ok (Except.ok (vec_set_len d1 s1)), 1) ∧
      (vec_set_len d1 s1).length = s1) ∧
    (∀ d1 s1 d2 s2, getter BUF_SIZE = Except.ok (d1, s1) → BUF_SIZE < s1 →
      getter s1 = Except.ok (d2, s2) → s2 ≤ s1 →
      GetOption_Vec_get_option getter =
        (PanicOr.ok (Except.ok (vec_set_len d2 s2)), 2) ∧
      (vec_set_len d2 s2).length = s2) := by
  have hlen : ∀ (d : List Nat) (n : Nat), (vec_set_len d n).length = n := by
    intro d n
    simp [vec_set_len]
  refine ⟨?_, ?_, ?_, ?_⟩
  · unfold GetOption_Vec_get_option
    cases hg : getter BUF_SIZE with
    | error e => simp
    | ok p =>
      obtain ⟨d1, s1⟩ := p
      by_cases h1 : BUF_SIZE < s1
      · simp only [if_pos h1]
        cases hg2 : getter s1 with
        | error e => simp
        | ok q =>
          obtain ⟨d2, s2⟩ := q
          by_cases h2 : s2 ≤ s1 <;> simp [h2]
      · simp [h1]
  · intro e h
    simp [GetOption_Vec_get_option, h]
  · intro d1 s1 h hs
    refine ⟨?_, hlen d1 s1⟩
    simp [GetOption_Vec_get_option, h, Nat.not_lt.mpr hs]
  · intro d1 s1 d2 s2 h h1 h2 hs
    refine ⟨?_, hlen d2 s2⟩
    simp [GetOption_Vec_get_option, h, h1, h2, hs]

/-- Witness for C5 amended: a value of reported size 100 is returned from
the single probe call; a value of reported size 130 triggers exactly one
retry and comes back with length 130. -/
theorem C5_amended_probe_retry_witness :
    (100 : Nat) ≤ BUF_SIZE ∧ BUF_SIZE < 130 ∧
    GetOption_Vec_get_option (fun _ => Except.ok (List.replicate 100 7, 100)) =
      (PanicOr.ok (Except.ok (vec_set_len (List.replicate 100 7) 100)), 1) ∧
    GetOption_Vec_get_option
        (fun n => Except.ok (List.replicate (min n 130) 9, 130)) =
      (PanicOr.ok (Except.ok (vec_set_len (List.replicate 130 9) 130)), 2) :=
  ⟨by decide, by decide,
   ((C5_amended_probe_retry (fun _ => Except.ok (List.replicate 100 7, 100))).2.2.1
     (List.replicate 100 7) 100 rfl (by decide)).1,
   ((C5_amended_probe_retry
       (fun n => Except.ok (List.replicate (min n 130) 9, 130))).2.2.2
     (List.replicate 128 9) 130 (List.replicate 130 9) 130 rfl (by decide) rfl
     (by decide)).1⟩

/-- C6: reply receives one request, applies the handler and sends its
result; a failure of the receive, of the handler, or of the send is the
operation result, and after a handler failure no response is handed to send;
reply_loop repeats reply, returns exactly the error of the first failing
iteration and never returns while iterations succeed. -/
theorem C6_reply_semantics :
    (∀ (E : Type) (fromE : Error → E) (e : Error)
       (handler : MessageBuffer → Except E MessageBuffer)
       (sendRes : MessageBuffer → Except Error Nat),
      Rep_reply fromE (Except.error e) handler sendRes =
        (Except.error (fromE e), none)) ∧
    (∀ (E : Type) (fromE : Error → E) (req : MessageBuffer)
       (handler : MessageBuffer → Except E MessageBuffer)
       (sendRes : MessageBuffer → Except Error Nat) (e : E),
      handler req = Except.error e →
      Rep_reply fromE (Except.ok req) handler sendRes =
        (Except.error e, none)) ∧
    (∀ (E : Type) (fromE : Error → E) (req : MessageBuffer)
       (handler : MessageBuffer → Except E MessageBuffer)
       (sendRes : MessageBuffer → Except Error Nat)
       (resp : MessageBuffer) (n : Nat),
      handler req = Except.ok resp → sendRes resp = Except.ok n →
      Rep_reply fromE (Except.ok req) handler sendRes =
        (Except.ok (), some resp)) ∧
    (∀ (E : Type) (fromE : Error → E) (req : MessageBuffer)
       (handler : MessageBuffer → Except E MessageBuffer)
       (sendRes : MessageBuffer → Except Error Nat)
       (resp : MessageBuffer) (e : Error),
      handler req = Except.ok resp → sendRes resp = Except.error e →
      Rep_reply fromE (Except.ok req) handler sendRes =
        (Except.error (fromE e), some resp)) ∧
    (∀ (E : Type) (fromE : Error → E)
       (handler : MessageBuffer → Except E MessageBuffer)
       (iters : List ((Except Error MessageBuffer) ×
         (MessageBuffer → Except Error Nat))),
      (∀ it ∈ iters, (Rep_reply fromE it.1 handler it.2).1 = Except.ok ()) →
      Rep_reply_loop fromE handler iters = none) ∧
    (∀ (E : Type) (fromE : Error → E)
       (handler : MessageBuffer → Except E MessageBuffer)
       (good : List ((Except Error MessageBuffer) ×
         (MessageBuffer → Except Error Nat)))
       (rf : Except Error MessageBuffer)
       (sf : MessageBuffer → Except Error Nat)
       (rest : List ((Except Error MessageBuffer) ×
         (MessageBuffer → Except Error Nat)))
       (e : E),
      (∀ it ∈ good, (Rep_reply fromE it.1 handler it.2).1 = Except.ok ()) →
      (Rep_reply fromE rf handler sf).1 = Except.error e →
      Rep_reply_loop fromE handler (good ++ (rf, sf) :: rest) = some e) := by
  refine ⟨fun E fromE e handler sendRes => rfl, ?_, ?_, ?_, ?_, ?_⟩
  · intro E fromE req handler sendRes e h
    simp [Rep_reply, h]
  · intro E fromE req handler sendRes resp n h hs
    simp [Rep_reply, h, hs]
  · intro E fromE req handler sendRes resp e h hs
    simp [Rep_reply, h, hs]
  · intro E fromE handler iters h
    exact Rep_reply_loop_all_ok fromE handler iters h
  · intro E fromE handler good rf sf rest e hgood hf
    exact Rep_reply_loop_first_err fromE handler good rf sf rest e hgood hf

/-- Witness for C6: a failing receive is returned with no send attempted; a
successful round-trip sends the handler result; an all-successful trace
keeps the loop running; a trace whose second iteration fails returns that
error. -/
theorem C6_reply_semantics_witness :
    Rep_reply (fun e => e) (Except.error INVALID)
      (fun m => Except.ok m) (fun _ => Except.ok 1) =
      (Except.error INVALID, none) ∧
    Rep_reply (fun e => e) (Except.ok [1])
      (fun m => Except.ok (0 :: m)) (fun _ => Except.ok 2) =
      (Except.ok (), some [0, 1]) ∧
    Rep_reply_loop (fun e => e) (fun m => Except.ok m)
      [(Except.ok [1], fun _ => Except.ok 1)] = none ∧
    Rep_reply_loop (fun e => e) (fun m => Except.ok m)
      ([(Except.ok [1], fun _ => Except.ok 1)] ++
        (Except.error INVALID, fun _ => Except.ok 1) :: []) = some INVALID := by
  refine ⟨C6_reply_semantics.1 Error (fun e => e) INVALID
      (fun m => Except.ok m) (fun _ => Except.ok 1),
    C6_reply_semantics.2.2.1 Error (fun e => e) [1]
      (fun m => Except.ok (0 :: m)) (fun _ => Except.ok 2) [0, 1] 2 rfl rfl,
    C6_reply_semantics.2.2.2.2.1 Error (fun e => e) (fun m => Except.ok m)
      [(Except.ok [1], fun _ => Except.ok 1)] ?_,
    C6_reply_semantics.2.2.2.2.2 Error (fun e => e) (fun m => Except.ok m)
      [(Except.ok [1], fun _ => Except.ok 1)] (Except.error INVALID)
      (fun _ => Except.ok 1) [] INVALID ?_ rfl⟩
  · intro it hit
    rw [List.mem_singleton] at hit
    subst hit
    rfl
  · intro it hit
    rw [List.mem_singleton] at hit
    subst hit
    rfl

/-- C8: decoding a native socket address is total: family 1 (INPROC) maps to
InProc and family 2 (IPC) to Ipc, both carrying the path bytes preceding the
first NUL; family 3 (INET) and family 4 (INET6) map to Inet; family 5 (ZT)
maps to ZeroTier with network id, node id and port; every other family
discriminant maps to Unspecified. -/
theorem C8_address_decode (a : NngSockaddr) :
    (a.s_family = NNG_AF_INPROC →
      SocketAddr_from a = SocketAddr.InProc (extract_path a.sa_path)) ∧
    (a.s_family = NNG_AF_IPC →
      SocketAddr_from a = SocketAddr.Ipc (extract_path a.sa_path)) ∧
    (a.s_family = NNG_AF_INET →
      SocketAddr_from a = SocketAddr.Inet (InetAddr.V4 a.in_addr a.in_port)) ∧
    (a.s_family = NNG_AF_INET6 →
      SocketAddr_from a = SocketAddr.Inet (InetAddr.V6 a.in6_addr a.in6_port)) ∧
    (a.s_family = NNG_AF_ZT →
      SocketAddr_from a =
        SocketAddr.ZeroTier a.zt_nwid a.zt_nodeid a.zt_port) ∧
    (a.s_family ≠ NNG_AF_INPROC → a.s_family ≠ NNG_AF_IPC →
     a.s_family ≠ NNG_AF_INET → a.s_family ≠ NNG_AF_INET6 →
     a.s_family ≠ NNG_AF_ZT → SocketAddr_from a = SocketAddr.Unspecified) ∧
    (∀ p, extract_path p = p.takeWhile (fun i => !(i == 0))) := by
  refine ⟨?_, ?_, ?_, ?_, ?_, ?_, extract_path_eq_takeWhile⟩ <;>
    unfold SocketAddr_from NNG_AF_INPROC NNG_AF_IPC NNG_AF_INET NNG_AF_INET6
      NNG_AF_ZT
  · intro h
    simp [h]
  · intro h
    simp [h]
  · intro h
    simp [h]
  · intro h
    simp [h]
  · intro h
    simp [h]
  · intro h1 h2 h3 h4 h5
    simp [h1, h2, h3, h4, h5]

/-- Witness for C8: decoding at each family discriminant, including the
unknown discriminant 9. -/
theorem C8_address_decode_witness :
    SocketAddr_from ⟨1, [104, 0, 33], 1, 2, 3, [4], 5, 6, 7⟩ =
      SocketAddr.InProc [104] ∧
    SocketAddr_from ⟨2, [104, 0, 33], 1, 2, 3, [4], 5, 6, 7⟩ =
      SocketAddr.Ipc [104] ∧
    SocketAddr_from ⟨3, [104, 0, 33], 1, 2, 3, [4], 5, 6, 7⟩ =
      SocketAddr.Inet (InetAddr.V4 2 1) ∧
    SocketAddr_from ⟨4, [104, 0, 33], 1, 2, 3, [4], 5, 6, 7⟩ =
      SocketAddr.Inet (InetAddr.V6 [4] 3) ∧
    SocketAddr_from ⟨5, [104, 0, 33], 1, 2, 3, [4], 5, 6, 7⟩ =
      SocketAddr.ZeroTier 5 6 7 ∧
    SocketAddr_from ⟨9, [104, 0, 33], 1, 2, 3, [4], 5, 6, 7⟩ =
      SocketAddr.Unspecified :=
  ⟨(C8_address_decode ⟨1, [104, 0, 33], 1, 2, 3, [4], 5, 6, 7⟩).1 rfl,
   (C8_address_decode ⟨2, [104, 0, 33], 1, 2, 3, [4], 5, 6, 7⟩).2.1 rfl,
   (C8_address_decode ⟨3, [104, 0, 33], 1, 2, 3, [4], 5, 6, 7⟩).2.2.1 rfl,
   (C8_address_decode ⟨4, [104, 0, 33], 1, 2, 3, [4], 5, 6, 7⟩).2.2.2.1 rfl,
   (C8_address_decode ⟨5, [104, 0, 33], 1, 2, 3, [4], 5, 6, 7⟩).2.2.2.2.1 rfl,
   (C8_address_decode ⟨9, [104, 0, 33], 1, 2, 3, [4], 5, 6, 7⟩).2.2.2.2.2.1
     (by decide) (by decide) (by decide) (by decide) (by decide)⟩

/-- C9: appending bytes to a message body and then truncating back to the
original length restores the original body exactly, and truncating to a
length at least the current length is a no-op. -/
theorem C9_append_truncate (b d : List Nat) (len : Nat) :
    Message_truncate (Message_append b d) b.length = b ∧
    (b.length ≤ len → Message_truncate b len = b) := by
  constructor
  · show Message_truncate (b ++ d) b.length = b
    simp only [Message_truncate, nng_msg_chop]
    by_cases hd : d = []
    · subst hd
      simp
    · have hlt : b.length < (b ++ d).length := by
        rw [List.length_append]
        have := List.length_pos.mpr hd
        omega
      rw [if_pos hlt]
      have h2 : (b ++ d).length - ((b ++ d).length - b.length) = b.length := by
        rw [List.length_append]
        omega
      rw [h2, List.take_left]
  · intro h
    simp only [Message_truncate]
    rw [if_neg (by omega)]

/-- Witness for C9: append [3, 4] to [1, 2] and truncate back to length 2;
truncate [1, 2] to 5 is a no-op. -/
theorem C9_append_truncate_witness :
    Message_truncate (Message_append [1, 2] [3, 4]) 2 = [1, 2] ∧
    ((2 : Nat) ≤ 5 ∧ Message_truncate [1, 2] 5 = [1, 2]) :=
  ⟨(C9_append_truncate [1, 2] [3, 4] 5).1,
   by decide, (C9_append_truncate [1, 2] [3, 4] 5).2 (by decide)⟩

/-- C10 (code bug): `io::Read::read for Message` panics in
`buf.copy_from_slice` whenever the output buffer is strictly longer than the
message body (the source slice has only `min(len(buf), len(m))` bytes, and
`copy_from_slice` requires equal lengths); for buffers no longer than the
body it behaves as the claim states — it copies the first n bytes, trims
exactly those off the front and returns Ok(n). -/
theorem C10_read_long_buffer_panics :
    Message_read [1, 2] [0, 0, 0] = PanicOr.panicked ∧
    Message_read [1, 2, 3] [0, 0] = PanicOr.ok ([1, 2], [3], 2) ∧
    Message_read [1, 2] [0, 0] = PanicOr.ok ([1, 2], [], 2) := by
  decide

end Nmsg
